import Mathlib

/-!
Verification of the su6 command-line orchestrator core (`src/su6/core.py`,
`src/su6/cli.py`) via a shallow embedding in Lean 4.

Python values are modelled as follows: a Typer command is reduced to its
`__name__` attribute (the only part the filtering logic inspects); Python
`None` defaults become `Option`; dicts keyed by strings become association
lists; exceptions become `Except`; in-place mutation of the process-wide
`ApplicationState` becomes explicit state passing.  File I/O and TOML
parsing (external collaborators of the core) are abstracted as an explicit
`world` parameter supplying the outcome that `_get_su6_config` would
produce.
-/

namespace Su6

/-- A Typer command as seen by `Config.determine_which_to_run`:
only its `__name__` is inspected. -/
structure Command where
  name : String
deriving DecidableEq, Repr

/-- Value type of the `default-flags` table: `str | list[str]`. -/
inductive FlagValue
  | str (s : String)
  | list (l : List String)
deriving DecidableEq, Repr

/-- Value of the `badge` field: `bool | str`. -/
inductive BadgeValue
  | bool (b : Bool)
  | str (s : String)
deriving DecidableEq, Repr

/-- `DEFAULT_BADGE = "coverage.svg"` from core.py. -/
def DEFAULT_BADGE : String := "coverage.svg"

/-- The `Config` dataclass of core.py with its schema defaults.
`coverage` is a float threshold; it is carried as a rational since no
arithmetic is ever performed on it by the code under verification.
The private `__raw` side table (plugin lookup only) is not modelled. -/
structure Config where
  directory : String := "."
  pyproject : String := "pyproject.toml"
  «include» : List String := []
  exclude : List String := []
  stop_after_first_failure : Bool := false
  json_indent : Int := 4
  docstyle_convention : Option String := none
  default_flags : Option (List (String × FlagValue)) := none
  coverage : Option ℚ := none
  badge : BadgeValue := .bool false
deriving DecidableEq, Repr

/-- `Config.__post_init__`: a `badge` value of `True` is replaced by the
default badge path. -/
def Config.post_init (c : Config) : Config :=
  if c.badge = .bool true then { c with badge := .str DEFAULT_BADGE } else c

/-- Python `list.index` for a present element (returns the first index of
`x`; for an absent element it returns the length, a case never reached by
the code, which only looks up names already filtered to be present). -/
def listIndex (x : String) : List String → Nat
  | [] => 0
  | y :: ys => if y = x then 0 else listIndex x ys + 1

/-- One step of a stable insertion sort by a `Nat` key: insert `x` before
the first element whose key is ≥ `key x`.  Python's `list.sort` is stable,
and stable insertion sort computes the same list. -/
def insertByKey (key : Command → Nat) (x : Command) : List Command → List Command
  | [] => [x]
  | y :: ys => if key x ≤ key y then x :: y :: ys else y :: insertByKey key x ys

/-- Stable sort by a `Nat` key, modelling `tools.sort(key=...)`. -/
def sortByKey (key : Command → Nat) : List Command → List Command
  | [] => []
  | x :: xs => insertByKey key x (sortByKey key xs)

/-- `Config.determine_which_to_run(self, options, exclude=None)` from
core.py: if `include` is non-empty, keep the options whose name is in
`include` and not in the cli `exclude` argument, sorted by position in
`include`; otherwise, if either deny-list is non-empty, drop the excluded
names; otherwise return the options unchanged.  The Python `None` default
of `exclude` is identified with `[]` (the code only uses `exclude or []`). -/
def Config.determine_which_to_run (c : Config) (options : List Command)
    (exclude : List String := []) : List Command :=
  if c.«include» ≠ [] then
    sortByKey (fun f => listIndex f.name c.«include»)
      (options.filter fun f => c.«include».contains f.name && !(exclude.contains f.name))
  else if c.exclude ≠ [] ∨ exclude ≠ [] then
    options.filter fun f => !((c.exclude ++ exclude).contains f.name)
  else
    options

theorem insertByKey_perm (key : Command → Nat) (x : Command) (l : List Command) :
    List.Perm (insertByKey key x l) (x :: l) := by
  induction l with
  | nil => simp [insertByKey]
  | cons y ys ih =>
    simp only [insertByKey]
    split
    · exact List.Perm.refl _
    · exact (List.Perm.cons y ih).trans (List.Perm.swap x y ys)

theorem sortByKey_perm (key : Command → Nat) (l : List Command) :
    List.Perm (sortByKey key l) l := by
  induction l with
  | nil => simp [sortByKey]
  | cons x xs ih =>
    exact (insertByKey_perm key x (sortByKey key xs)).trans (List.Perm.cons x ih)

theorem insertByKey_pairwise (key : Command → Nat) (x : Command) (l : List Command)
    (h : l.Pairwise (fun a b => key a ≤ key b)) :
    (insertByKey key x l).Pairwise (fun a b => key a ≤ key b) := by
  induction l with
  | nil => simp [insertByKey]
  | cons y ys ih =>
    simp only [insertByKey]
    rcases List.pairwise_cons.mp h with ⟨hy, hys⟩
    split
    · rename_i hxy
      refine List.pairwise_cons.mpr ⟨?_, h⟩
      intro z hz
      rcases List.mem_cons.mp hz with rfl | hz
      · exact hxy
      · exact le_trans hxy (hy z hz)
    · rename_i hxy
      refine List.pairwise_cons.mpr ⟨?_, ih hys⟩
      intro z hz
      have := (insertByKey_perm key x ys).mem_iff.mp hz
      rcases List.mem_cons.mp this with rfl | hz'
      · exact Nat.le_of_not_le hxy
      · exact hy z hz'

theorem sortByKey_pairwise (key : Command → Nat) (l : List Command) :
    (sortByKey key l).Pairwise (fun a b => key a ≤ key b) := by
  induction l with
  | nil => simp [sortByKey]
  | cons x xs ih => exact insertByKey_pairwise key x (sortByKey key xs) ih

/-- C1: with a non-empty `include`, `determine_which_to_run` returns only
commands whose names are in `include`, and the result is ordered by each
name's position in `include`, for every input list (hence regardless of
the input order). -/
theorem determine_which_to_run_include_order
    (c : Config) (options : List Command) (excl : List String)
    (h : c.«include» ≠ []) :
    (∀ f ∈ c.determine_which_to_run options excl, f.name ∈ c.«include») ∧
    (c.determine_which_to_run options excl).Pairwise
      (fun a b => listIndex a.name c.«include» ≤ listIndex b.name c.«include») := by
  unfold Config.determine_which_to_run
  rw [if_pos h]
  constructor
  · intro f hf
    have hperm := sortByKey_perm (fun f => listIndex f.name c.«include»)
      (options.filter fun f => c.«include».contains f.name && !(excl.contains f.name))
    have hmem := hperm.mem_iff.mp hf
    have := List.of_mem_filter hmem
    simp only [Bool.and_eq_true, Bool.not_eq_true'] at this
    exact List.elem_iff.mp this.1
  · exact sortByKey_pairwise _ _

/-- Witness for C1 at the spec's scenario: `include = ["ruff","black"]`,
input `[ruff, black, mypy]`. -/
theorem determine_which_to_run_include_order_witness :
    ({ «include» := ["ruff", "black"] } : Config).«include» ≠ [] ∧
    ((∀ f ∈ ({ «include» := ["ruff", "black"] } : Config).determine_which_to_run
        [⟨"mypy"⟩, ⟨"black"⟩, ⟨"ruff"⟩] [], f.name ∈ ["ruff", "black"]) ∧
      (({ «include» := ["ruff", "black"] } : Config).determine_which_to_run
        [⟨"mypy"⟩, ⟨"black"⟩, ⟨"ruff"⟩] []).Pairwise
        (fun a b => listIndex a.name ["ruff", "black"] ≤ listIndex b.name ["ruff", "black"])) :=
  ⟨by decide,
   determine_which_to_run_include_order { «include» := ["ruff", "black"] }
     [⟨"mypy"⟩, ⟨"black"⟩, ⟨"ruff"⟩] [] (by decide)⟩

/-- C2 counterexample: with `include = ["ruff"]`, an input containing the
`ruff` command, and the cli `exclude` argument `["ruff"]`,
`determine_which_to_run` returns the empty list — so a command named in
`include` that appears in the input is *not* returned when it is named in
the `exclude` argument. -/
theorem determine_which_to_run_cli_exclude_filters :
    ({ «include» := ["ruff"] } : Config).determine_which_to_run [⟨"ruff"⟩] ["ruff"] = [] ∧
    "ruff" ∈ ({ «include» := ["ruff"] } : Config).«include» ∧
    (⟨"ruff"⟩ : Command) ∈ ([⟨"ruff"⟩] : List Command) := by
  decide

/-- C2 (amended): with a non-empty `include`, the result is independent of
the Config's `exclude` *field*, but the `exclude` *argument* passed to
`determine_which_to_run` is still honoured: a command of the input list is
returned exactly when its name is in `include` and not in the `exclude`
argument. -/
theorem determine_which_to_run_include_ignores_config_exclude
    (c : Config) (options : List Command) (excl : List String)
    (h : c.«include» ≠ []) :
    c.determine_which_to_run options excl =
      ({ c with exclude := [] } : Config).determine_which_to_run options excl ∧
    ∀ f, f ∈ c.determine_which_to_run options excl ↔
      (f ∈ options ∧ f.name ∈ c.«include» ∧ f.name ∉ excl) := by
  constructor
  · unfold Config.determine_which_to_run
    rw [if_pos h, if_pos h]
  · intro f
    unfold Config.determine_which_to_run
    rw [if_pos h, (sortByKey_perm _ _).mem_iff, List.mem_filter]
    simp [List.contains, List.elem_eq_mem, and_assoc]

/-- Witness for C2's amended theorem: `include = ["ruff"]`,
config `exclude = ["ruff"]`, cli exclude `["black"]`. -/
theorem determine_which_to_run_include_ignores_config_exclude_witness :
    ({ «include» := ["ruff"], exclude := ["ruff"] } : Config).«include» ≠ [] ∧
    (({ «include» := ["ruff"], exclude := ["ruff"] } : Config).determine_which_to_run
        [⟨"ruff"⟩, ⟨"black"⟩] ["black"] =
      ({ «include» := ["ruff"], exclude := [] } : Config).determine_which_to_run
        [⟨"ruff"⟩, ⟨"black"⟩] ["black"] ∧
      ∀ f, f ∈ ({ «include» := ["ruff"], exclude := ["ruff"] } : Config).determine_which_to_run
          [⟨"ruff"⟩, ⟨"black"⟩] ["black"] ↔
        (f ∈ ([⟨"ruff"⟩, ⟨"black"⟩] : List Command) ∧ f.name ∈ ["ruff"] ∧ f.name ∉ ["black"])) :=
  ⟨by decide,
   determine_which_to_run_include_ignores_config_exclude
     { «include» := ["ruff"], exclude := ["ruff"] } [⟨"ruff"⟩, ⟨"black"⟩] ["black"] (by decide)⟩

/-- C3: with empty `include` and non-empty config `exclude`,
`determine_which_to_run` returns exactly the input list with the commands
named in either deny-list (config field or cli argument) removed, as a
`filter` of the input — hence preserving the input order. -/
theorem determine_which_to_run_exclude_denylist
    (c : Config) (options : List Command) (excl : List String)
    (hinc : c.«include» = []) (hexc : c.exclude ≠ []) :
    c.determine_which_to_run options excl =
      options.filter (fun f => !(c.exclude.contains f.name) && !(excl.contains f.name)) := by
  unfold Config.determine_which_to_run
  rw [if_neg (by simp [hinc]), if_pos (Or.inl hexc)]
  apply List.filter_congr
  intro f _
  simp [List.contains, List.elem_eq_mem, List.mem_append, not_or]

/-- Witness for C3: `exclude = ["mypy"]`, cli exclude `["black"]`,
input `[ruff, black, mypy]`. -/
theorem determine_which_to_run_exclude_denylist_witness :
    ({ exclude := ["mypy"] } : Config).«include» = [] ∧
    ({ exclude := ["mypy"] } : Config).exclude ≠ [] ∧
    ({ exclude := ["mypy"] } : Config).determine_which_to_run
        [⟨"ruff"⟩, ⟨"black"⟩, ⟨"mypy"⟩] ["black"] =
      ([⟨"ruff"⟩, ⟨"black"⟩, ⟨"mypy"⟩] : List Command).filter
        (fun f => !((["mypy"] : List String).contains f.name) &&
          !((["black"] : List String).contains f.name)) :=
  ⟨by decide, by decide,
   determine_which_to_run_exclude_denylist { exclude := ["mypy"] }
     [⟨"ruff"⟩, ⟨"black"⟩, ⟨"mypy"⟩] ["black"] (by decide) (by decide)⟩

/-! ### The `with_exit_code` decorator (core.py lines 88-130) -/

/-- A value returned by a command body: `bool | int | None`. -/
inductive CommandResult
  | print_none
  | bool (b : Bool)
  | int (n : Int)
deriving DecidableEq, Repr

/-- Python `int(result)` after the `None → 0` replacement of
`inner_wrapper`. -/
def CommandResult.toInt : CommandResult → Int
  | .print_none => 0
  | .bool b => if b then 1 else 0
  | .int n => n

/-- The `inner_wrapper` produced by `with_exit_code()`: the command body's
return value is translated into either a raised `typer.Exit(code)`
(modelled as `.error code`) or a plain returned exit code (`.ok code`).
JSON dumping inside the wrapper is output-only and not modelled. -/
def with_exit_code_inner (suppress : Bool) (ignoreCodes : List Int)
    (result : CommandResult) : Except Int Int :=
  if result.toInt ≠ 0 ∧ ¬suppress then .error result.toInt
  else if ignoreCodes.contains result.toInt then .ok 0
  else .ok result.toInt

/-- C10: a command body returning `None` is treated as success (exit code
0, no `Exit` raised), and in general the wrapper raises `Exit` exactly
when the body's value converts to a nonzero integer and `_suppress` was
not passed; the raised code is the body's integer value. -/
theorem with_exit_code_none_success_and_raise_iff
    (suppress : Bool) (ignoreCodes : List Int) (result : CommandResult) :
    (with_exit_code_inner suppress ignoreCodes .print_none = .ok 0) ∧
    ((∃ code, with_exit_code_inner suppress ignoreCodes result = .error code) ↔
      (result.toInt ≠ 0 ∧ suppress = false)) ∧
    (∀ code, with_exit_code_inner suppress ignoreCodes result = .error code →
      code = result.toInt) := by
  refine ⟨?_, ⟨?_, ?_⟩, ?_⟩
  · unfold with_exit_code_inner
    simp only [CommandResult.toInt]
    rw [if_neg (by simp)]
    split <;> rfl
  · rintro ⟨code, hcode⟩
    unfold with_exit_code_inner at hcode
    split at hcode
    · rename_i hcond
      exact ⟨hcond.1, by simpa using hcond.2⟩
    · split at hcode <;> exact absurd hcode (by simp)
  · rintro ⟨hnz, hsup⟩
    refine ⟨result.toInt, ?_⟩
    unfold with_exit_code_inner
    rw [if_pos ⟨hnz, by simp [hsup]⟩]
  · intro code hcode
    unfold with_exit_code_inner at hcode
    split at hcode
    · exact (Except.error.injEq _ _).mp hcode |>.symm
    · split at hcode <;> exact absurd hcode (by simp)

/-! ### Tool running (core.py lines 133-241) -/

/-- Outcome of executing one child process: captured stdout on success, or
a `ProcessExecutionError` carrying stdout and stderr. -/
inductive ToolOutcome
  | success (stdout : String)
  | failure (stdout : String) (stderr : String)
deriving DecidableEq, Repr

/-- The process-execution collaborator for one `run_tool` call: whether
`local[tool]` resolves (executable on PATH, else `CommandNotFound` is
raised), and the outcomes of the direct invocation and of the
`python -m` fallback, as functions of the argument list. -/
structure ToolEnv where
  inPath : Bool
  direct : List String → ToolOutcome
  viaPython : List String → ToolOutcome

/-- Python `pat in s` substring test. -/
def containsSubstr (s pat : String) : Bool := (s.splitOn pat).length > 1

/-- `self.default_flags.get(service, [])` on the association-list model of
the `default-flags` table. -/
def lookupFlags (flags : List (String × FlagValue)) (service : String) : Option FlagValue :=
  (flags.find? (fun p => p.1 == service)).map Prod.snd

/-- `Config.get_default_flags`: no table or falsey entry yields `[]`; a
list entry is returned as is; a string entry is split on spaces, each part
stripped, empty parts dropped. -/
def Config.get_default_flags (c : Config) (service : String) : List String :=
  match c.default_flags with
  | none => []
  | some flags =>
    match lookupFlags flags service with
    | none => []
    | some (.list l) => if l.isEmpty then [] else l
    | some (.str s) =>
      if s = "" then []
      else ((s.splitOn " ").map String.trim).filter (fun part => part ≠ "")

/-- The argument list `run_tool` actually passes to the child process:
the caller's args extended with the configured default flags
(`args.extend(extra_flags)` in core.py; a missing `state.config` adds
nothing). -/
def run_tool_full_args (config : Option Config) (tool : String)
    (args : List String) : List String :=
  args ++ (match config with
    | some c => c.get_default_flags tool
    | none => [])

/-- `run_tool_via_python`: run `python -m tool`; on success exit 0
(`on_tool_success`); on failure, a stderr containing "No module named"
means the tool is missing (`on_tool_missing`, exit 127), anything else is
a tool failure (`on_tool_failure`, exit 1).  Printing in the three
`on_tool_*` helpers is output-only and not modelled. -/
def run_tool_via_python (env : ToolEnv) (args : List String) : Int :=
  match env.viaPython args with
  | .success _ => 0
  | .failure _ stderr =>
    if containsSubstr stderr "No module named" then 127
    else 1

/-- `run_tool`: extend the args with default flags; if `local[tool]`
raises `CommandNotFound`, fall back to `run_tool_via_python`; otherwise
run the tool (success → 0, `ProcessExecutionError` → 1).  The display-only
`tool_name = tool.split("/")[-1]` is not modelled. -/
def run_tool (config : Option Config) (env : ToolEnv) (tool : String)
    (args0 : List String) : Int :=
  if env.inPath then
    match env.direct (run_tool_full_args config tool args0) with
    | .success _ => 0
    | .failure _ _ => 1
  else
    run_tool_via_python env (run_tool_full_args config tool args0)

/-- C6: `run_tool` yields exactly one of three outcomes — 0 when the
executed attempt succeeds, 1 when the tool ran and failed, and 127 exactly
when the executable was not on PATH and the `python -m` fallback reported
"No module named"; the three outcomes are characterized disjointly, so the
not-found outcome is never conflated with the ran-and-failed outcome. -/
theorem run_tool_tristate (config : Option Config) (env : ToolEnv)
    (tool : String) (args : List String) :
    (run_tool config env tool args = 0 ∨ run_tool config env tool args = 1 ∨
      run_tool config env tool args = 127) ∧
    (run_tool config env tool args = 0 ↔
      ∃ out, (if env.inPath then env.direct else env.viaPython)
        (run_tool_full_args config tool args) = .success out) ∧
    (run_tool config env tool args = 127 ↔
      (env.inPath = false ∧ ∃ out err,
        env.viaPython (run_tool_full_args config tool args) = .failure out err ∧
        containsSubstr err "No module named" = true)) ∧
    (run_tool config env tool args = 1 ↔
      ∃ out err, (if env.inPath then env.direct else env.viaPython)
        (run_tool_full_args config tool args) = .failure out err ∧
        (env.inPath = true ∨ containsSubstr err "No module named" = false)) := by
  unfold run_tool run_tool_via_python
  cases hp : env.inPath with
  | true =>
    cases hd : env.direct (run_tool_full_args config tool args) with
    | success out => simp [hd]
    | failure out err => simp [hd]
  | false =>
    cases hv : env.viaPython (run_tool_full_args config tool args) with
    | success out => simp [hv]
    | failure out err =>
      by_cases hmod : containsSubstr err "No module named" = true
      · simp [hv, hmod]
        exact ⟨out, err, ⟨rfl, rfl⟩, hmod⟩
      · rw [Bool.not_eq_true] at hmod
        simp [hv, hmod]
        exact ⟨out, err, ⟨rfl, rfl⟩, hmod⟩

/-! ### The aggregate `all` command loop (cli.py lines 229-241) -/

/-- The tool-invocation loop of `check_all`, collecting exit codes.
`res` abstracts `tool(*a, **kw)` — the sub-command invoked with
`_suppress=True`, returning its exit code.  With `stop`
(= `config.stop_after_first_failure`) set, the loop breaks right after
appending the first nonzero result. -/
def check_all_codes (stop : Bool) (res : Command → Int) : List Command → List Int
  | [] => []
  | t :: ts =>
    if stop ∧ res t ≠ 0 then [res t]
    else res t :: check_all_codes stop res ts

/-- The tools actually invoked by the `check_all` loop, in invocation
order. -/
def check_all_invoked (stop : Bool) (res : Command → Int) : List Command → List Command
  | [] => []
  | t :: ts =>
    if stop ∧ res t ≠ 0 then [t]
    else t :: check_all_invoked stop res ts

theorem check_all_codes_eq_map (stop : Bool) (res : Command → Int)
    (tools : List Command) :
    check_all_codes stop res tools = (check_all_invoked stop res tools).map res := by
  induction tools with
  | nil => rfl
  | cons t ts ih =>
    by_cases h : stop = true ∧ res t ≠ 0
    · simp [check_all_codes, check_all_invoked, h]
    · simp only [check_all_codes, check_all_invoked, if_neg h, List.map_cons, ih]

theorem check_all_invoked_no_stop (res : Command → Int) (tools : List Command) :
    check_all_invoked false res tools = tools := by
  induction tools with
  | nil => rfl
  | cons t ts ih => simp [check_all_invoked, ih]

theorem check_all_invoked_stop (res : Command → Int) (tools : List Command) :
    check_all_invoked true res tools =
      tools.takeWhile (fun t => decide (res t = 0)) ++
        (tools.dropWhile (fun t => decide (res t = 0))).take 1 := by
  induction tools with
  | nil => rfl
  | cons t ts ih =>
    by_cases h : res t = 0
    · simp [check_all_invoked, List.takeWhile_cons, List.dropWhile_cons, h, ih]
    · simp [check_all_invoked, List.takeWhile_cons, List.dropWhile_cons, h]

/-- C7: in the `check_all` loop, the collected exit codes are exactly the
results of the invoked tools in invocation order; without
`stop_after_first_failure` every filtered tool is invoked in order, and
with it the invoked tools are exactly the leading run of tools whose
result is zero followed by the first failing tool — no tool after the
first nonzero result is ever invoked. -/
theorem check_all_order_and_stop (stop : Bool) (res : Command → Int)
    (tools : List Command) :
    (check_all_codes stop res tools = (check_all_invoked stop res tools).map res) ∧
    (check_all_invoked false res tools = tools) ∧
    (check_all_invoked true res tools =
      tools.takeWhile (fun t => decide (res t = 0)) ++
        (tools.dropWhile (fun t => decide (res t = 0))).take 1) :=
  ⟨check_all_codes_eq_map stop res tools,
   check_all_invoked_no_stop res tools,
   check_all_invoked_stop res tools⟩

/-! ### Verbosity and output format (core.py lines 244-358) -/

/-- The `Verbosity` enum; its string values `"1"`..`"4"` compare with
integers through `int(self.value)`. -/
inductive Verbosity
  | quiet
  | normal
  | verbose
  | debug
deriving DecidableEq, Repr

/-- `int(self.value)`, the number `Verbosity._compare` uses against
integer operands. -/
def Verbosity.toInt : Verbosity → Int
  | .quiet => 1
  | .normal => 2
  | .verbose => 3
  | .debug => 4

def DEFAULT_VERBOSITY : Verbosity := .normal

/-- The `Format` enum for `su6 --format`. -/
inductive Format
  | text
  | json
deriving DecidableEq, Repr

def DEFAULT_FORMAT : Format := .text

/-! ### Config loading (core.py lines 473-531) -/

/-- The `**overwrites` dict that cli code passes towards
`get_su6_config`, one optional entry per Config field: the outer `Option`
is key presence in the dict, the inner `Option` is the Python `None`
value, the "not provided" sentinel. -/
structure Overwrites where
  directory : Option (Option String) := none
  pyproject : Option (Option String) := none
  «include» : Option (Option (List String)) := none
  exclude : Option (Option (List String)) := none
  stop_after_first_failure : Option (Option Bool) := none
  json_indent : Option (Option Int) := none
  docstyle_convention : Option (Option String) := none
  default_flags : Option (Option (List (String × FlagValue))) := none
  coverage : Option (Option ℚ) := none
  badge : Option (Option BadgeValue) := none
deriving DecidableEq, Repr

/-- The stripped overwrites after `convert_config`: every remaining key
carries a real (non-`None`) value. -/
structure ConfigUpdate where
  directory : Option String := none
  pyproject : Option String := none
  «include» : Option (List String) := none
  exclude : Option (List String) := none
  stop_after_first_failure : Option Bool := none
  json_indent : Option Int := none
  docstyle_convention : Option String := none
  default_flags : Option (List (String × FlagValue)) := none
  coverage : Option ℚ := none
  badge : Option BadgeValue := none
deriving DecidableEq, Repr

/-- Modelled from the spec: `configuraptor.convert_config` (an external
collaborator of core.py) drops every key whose value is the "not
provided" sentinel `None` — spec §4.1 step 4 ("skipping any override
whose value is the sentinel \"not provided\"") and the
`get_su6_config` docstring ("If a value is None, the key is not
overwritten").  Its kebab-to-snake key normalization is implicit in the
structure field names. -/
def convert_config (ow : Overwrites) : ConfigUpdate where
  directory := ow.directory.bind id
  pyproject := ow.pyproject.bind id
  «include» := ow.«include».bind id
  exclude := ow.exclude.bind id
  stop_after_first_failure := ow.stop_after_first_failure.bind id
  json_indent := ow.json_indent.bind id
  docstyle_convention := ow.docstyle_convention.bind id
  default_flags := ow.default_flags.bind id
  coverage := ow.coverage.bind id
  badge := ow.badge.bind id

/-- Modelled from the spec: `configuraptor`'s `TypedConfig.update` sets
each provided key's attribute on the instance and leaves every other
field unchanged — spec §4.2 ("merges the given values into the existing
Config in place").  The in-place mutation is modelled functionally. -/
def Config.update (c : Config) (u : ConfigUpdate) : Config where
  directory := u.directory.getD c.directory
  pyproject := u.pyproject.getD c.pyproject
  «include» := u.«include».getD c.«include»
  exclude := u.exclude.getD c.exclude
  stop_after_first_failure := u.stop_after_first_failure.getD c.stop_after_first_failure
  json_indent := u.json_indent.getD c.json_indent
  docstyle_convention := (u.docstyle_convention.map some).getD c.docstyle_convention
  default_flags := (u.default_flags.map some).getD c.default_flags
  coverage := (u.coverage.map some).getD c.coverage
  badge := u.badge.getD c.badge

/-- `Config(**overwrites)`: a fresh Config built from the schema defaults
and the provided keys, with `__post_init__` applied. -/
def Config.from_update (u : ConfigUpdate) : Config :=
  Config.post_init (Config.update {} u)

/-- The exceptions that can escape `_get_su6_config` (file I/O, TOML
syntax, configuraptor type check, missing `tool` table), plus the
internal `ValueError("Falsey config?")` raised for a falsey parse
result, plus plugin-population errors (strict unknown key). -/
inductive LoadError
  | ioError
  | tomlError
  | invalidType (key : String)
  | falseyConfig
  | pluginKey (key : String)
deriving DecidableEq, Repr

/-- The file-locating / TOML-parsing / type-checking collaborator:
the outcome `_get_su6_config(overwrites, toml_path)` would produce —
`.ok none` when no document (or no `tool.su6` section source) is found,
`.ok (some c)` for a parsed, type-checked Config (pyproject path and
overwrites already applied inside `_get_su6_config`), `.error e` when
locating, parsing or type-checking raised. -/
def LoadWorld : Type :=
  ConfigUpdate → Option String → Except LoadError (Option Config)

/-- What `get_su6_config` produces when it returns: the Config, plus
whether the fallback warning was printed to stderr. -/
structure LoadReturn where
  config : Config
  warned : Bool
deriving DecidableEq, Repr

/-- `get_su6_config(verbosity, toml_path, **overwrites)` from core.py:
strip `None` overwrites with `convert_config`; try `_get_su6_config`
(abstracted as `world`); a falsey (`None`) result raises
`ValueError("Falsey config?")` into the same handler as any other
exception, which re-raises at verbosity > 3 (debug), and otherwise falls
back to `Config(**overwrites)` — printing a stderr warning (tracked in
`warned`) exactly when verbosity > 2. -/
def get_su6_config (verbosity : Verbosity) (world : LoadWorld)
    (toml_path : Option String) (overwrites : Overwrites) :
    Except LoadError LoadReturn :=
  match world (convert_config overwrites) toml_path with
  | .ok (some c) => .ok ⟨c, false⟩
  | .ok none =>
    if verbosity.toInt > 3 then .error .falseyConfig
    else .ok ⟨Config.from_update (convert_config overwrites), decide (verbosity.toInt > 2)⟩
  | .error e =>
    if verbosity.toInt > 3 then .error e
    else .ok ⟨Config.from_update (convert_config overwrites), decide (verbosity.toInt > 2)⟩

/-- C4: when `_get_su6_config` raises, `get_su6_config` follows the
graduated verbosity policy — at verbosity 1 and 2 it silently returns the
fallback Config built from the `None`-stripped overwrites and defaults; at
verbosity 3 it returns the same fallback after warning on stderr; at
verbosity 4 (debug) it re-raises the original exception. -/
theorem get_su6_config_failure_policy
    (v : Verbosity) (world : LoadWorld) (toml_path : Option String)
    (ow : Overwrites) (e : LoadError)
    (h : world (convert_config ow) toml_path = .error e) :
    ((v = .quiet ∨ v = .normal) →
      get_su6_config v world toml_path ow =
        .ok ⟨Config.from_update (convert_config ow), false⟩) ∧
    (v = .verbose →
      get_su6_config v world toml_path ow =
        .ok ⟨Config.from_update (convert_config ow), true⟩) ∧
    (v = .debug → get_su6_config v world toml_path ow = .error e) := by
  refine ⟨?_, ?_, ?_⟩
  · rintro (rfl | rfl) <;> (unfold get_su6_config; rw [h]; rfl)
  · rintro rfl
    unfold get_su6_config
    rw [h]
    rfl
  · rintro rfl
    unfold get_su6_config
    rw [h]
    rfl

/-- A world in which locating/parsing the document always raises a TOML
syntax error. -/
def tomlErrorWorld : LoadWorld := fun _ _ => .error .tomlError

/-- Witness for C4 at verbosity 3 with a TOML syntax error. -/
theorem get_su6_config_failure_policy_witness :
    (tomlErrorWorld (convert_config {}) none = .error .tomlError) ∧
    (((Verbosity.verbose = .quiet ∨ Verbosity.verbose = .normal) →
      get_su6_config .verbose tomlErrorWorld none {} =
        .ok ⟨Config.from_update (convert_config {}), false⟩) ∧
    (Verbosity.verbose = .verbose →
      get_su6_config .verbose tomlErrorWorld none {} =
        .ok ⟨Config.from_update (convert_config {}), true⟩) ∧
    (Verbosity.verbose = .debug →
      get_su6_config .verbose tomlErrorWorld none {} = .error .tomlError)) :=
  ⟨rfl, get_su6_config_failure_policy .verbose tomlErrorWorld none {} .tomlError rfl⟩

/-- A world in which no config document is found
(`find_pyproject_toml()` returns nothing, `_get_su6_config` returns
`None`). -/
def noDocWorld : LoadWorld := fun _ _ => .ok none

/-- C9: an overwrite carrying the `None` sentinel never overwrites — with
no document found and overwrites `{directory: None}`, whenever
`get_su6_config` returns a Config it is exactly the schema-default
Config (directory stays `"."`). -/
theorem get_su6_config_none_sentinel_defaults
    (v : Verbosity) (world : LoadWorld) (r : LoadReturn)
    (hworld : world (convert_config { directory := some none }) none = .ok none)
    (hret : get_su6_config v world none { directory := some none } = .ok r) :
    r.config = ({} : Config) ∧ r.config.directory = "." := by
  unfold get_su6_config at hret
  rw [hworld] at hret
  split at hret
  · rename_i c heq
    exact absurd heq (by simp)
  · split at hret
    · exact absurd hret (by simp)
    · have h := Except.ok.inj hret
      rw [← h]
      exact ⟨rfl, rfl⟩
  · rename_i e heq
    exact absurd heq (by simp)

/-- Witness for C9 at default verbosity. -/
theorem get_su6_config_none_sentinel_defaults_witness :
    (noDocWorld (convert_config { directory := some none }) none = .ok none) ∧
    (get_su6_config .normal noDocWorld none { directory := some none } =
      .ok ⟨{}, false⟩) ∧
    ((⟨{}, false⟩ : LoadReturn).config = ({} : Config) ∧
      (⟨{}, false⟩ : LoadReturn).config.directory = ".") :=
  ⟨rfl, rfl,
   get_su6_config_none_sentinel_defaults .normal noDocWorld ⟨{}, false⟩ rfl rfl⟩

/-! ### ApplicationState (core.py lines 581-669) -/

/-- The dataclass fields of `ApplicationState`.  The plugin registries
(`_plugin_configs`, `_registered_plugins`) are side tables that never
touch these fields; plugin-config population
(`_setup_plugin_config_defaults`) is abstracted as the `plugins`
argument of `load_config`. -/
structure ApplicationState where
  verbosity : Verbosity := DEFAULT_VERBOSITY
  output_format : Format := DEFAULT_FORMAT
  config_file : Option String := none
  config : Option Config := none
deriving Repr

/-- The `**overwrites` of `ApplicationState.load_config`: the three
special pre-subcommand keys it extracts, plus the rest, forwarded to
`get_su6_config`. -/
structure StateOverwrites where
  verbosity : Option Verbosity := none
  config_file : Option (Option String) := none
  output_format : Option Format := none
  rest : Overwrites := {}

/-- `ApplicationState.load_config(**overwrites)`: mutate the state fields
named by the special keys, then load a fresh Config and store it.  Note a
quirk kept from the source: `"verbosity"` is read but not popped from the
overwrites, so it is forwarded into `get_su6_config`'s `verbosity`
parameter — when absent, that parameter stays at `DEFAULT_VERBOSITY`
rather than the state's own verbosity.  `plugins` models
`_setup_plugin_config_defaults`, which runs after `self.config` is
assigned and may raise (strict unknown plugin key); exceptions travel as
`.error` alongside the (already mutated) state. -/
def ApplicationState.load_config (s : ApplicationState) (world : LoadWorld)
    (plugins : Config → Except LoadError Unit) (ow : StateOverwrites) :
    ApplicationState × Except LoadError Config :=
  match get_su6_config (ow.verbosity.getD DEFAULT_VERBOSITY) world
      (ow.config_file.getD s.config_file) ow.rest with
  | .error e =>
    ({ s with verbosity := ow.verbosity.getD s.verbosity,
              config_file := ow.config_file.getD s.config_file,
              output_format := ow.output_format.getD s.output_format },
     .error e)
  | .ok r =>
    match plugins r.config with
    | .error e =>
      ({ s with verbosity := ow.verbosity.getD s.verbosity,
                config_file := ow.config_file.getD s.config_file,
                output_format := ow.output_format.getD s.output_format,
                config := some r.config },
       .error e)
    | .ok _ =>
      ({ s with verbosity := ow.verbosity.getD s.verbosity,
                config_file := ow.config_file.getD s.config_file,
                output_format := ow.output_format.getD s.output_format,
                config := some r.config },
       .ok r.config)

/-- `ApplicationState.get_config`: `return self.config or self.load_config()`
— a Config dataclass instance is always truthy, so a stored Config is
returned as is and only a `None` triggers the default load. -/
def ApplicationState.get_config (s : ApplicationState) (world : LoadWorld)
    (plugins : Config → Except LoadError Unit) :
    ApplicationState × Except LoadError Config :=
  match s.config with
  | some c => (s, .ok c)
  | none => s.load_config world plugins {}

/-- `ApplicationState.update_config(**values)`: get (or first load) the
current Config, strip `None` values with `convert_config`, and update the
Config in place.  In Python the returned Config and `self.config` are the
same mutated object; the aliasing is modelled by storing the updated
Config back into the state and returning the same value. -/
def ApplicationState.update_config (s : ApplicationState) (world : LoadWorld)
    (plugins : Config → Except LoadError Unit) (values : Overwrites) :
    ApplicationState × Except LoadError Config :=
  match s.get_config world plugins with
  | (s1, .error e) => (s1, .error e)
  | (s1, .ok c) =>
    ({ s1 with config := some (c.update (convert_config values)) },
     .ok (c.update (convert_config values)))

/-- C5: whenever `update_config` returns normally it returns a Config and
leaves the state's `config` field holding exactly that Config — for any
prior state, including one on which no config-touching call has happened
yet (`config = none`, where `get_config` first loads defaults). -/
theorem update_config_sets_state_config
    (s : ApplicationState) (world : LoadWorld)
    (plugins : Config → Except LoadError Unit) (values : Overwrites)
    (s' : ApplicationState) (c : Config)
    (h : s.update_config world plugins values = (s', .ok c)) :
    s'.config = some c := by
  unfold ApplicationState.update_config at h
  rcases hg : s.get_config world plugins with ⟨s1, r⟩
  rw [hg] at h
  cases r with
  | error e =>
    rw [Prod.mk.injEq] at h
    exact absurd h.2 (by simp)
  | ok c0 =>
    rw [Prod.mk.injEq] at h
    obtain ⟨hs, hc⟩ := h
    rw [← hs]
    exact congrArg some (Except.ok.inj hc)

/-- A plugin-config population step that succeeds (no strict-key
violation). -/
def okPlugins : Config → Except LoadError Unit := fun _ => .ok ()

/-- Witness for C5 on the fresh state (`config = none`): `update_config`
with no overwrites first loads the default Config. -/
theorem update_config_sets_state_config_witness :
    (ApplicationState.update_config {} noDocWorld okPlugins {} =
      ({ config := some {} }, .ok ({} : Config))) ∧
    ({ config := some ({} : Config) } : ApplicationState).config = some ({} : Config) :=
  ⟨rfl,
   update_config_sets_state_config {} noDocWorld okPlugins {}
     { config := some {} } {} rfl⟩

/-- C8: on a state whose Config is loaded, `update_config` with the single
override `directory = x` returns a Config whose `directory` equals `x`
and whose other nine fields are unchanged from the pre-override Config. -/
theorem update_config_directory_frame
    (s : ApplicationState) (world : LoadWorld)
    (plugins : Config → Except LoadError Unit) (x : String)
    (c0 : Config) (hc : s.config = some c0) :
    ∀ c', (s.update_config world plugins { directory := some (some x) }).2 = .ok c' →
      c'.directory = x ∧ c'.pyproject = c0.pyproject ∧
      c'.«include» = c0.«include» ∧ c'.exclude = c0.exclude ∧
      c'.stop_after_first_failure = c0.stop_after_first_failure ∧
      c'.json_indent = c0.json_indent ∧
      c'.docstyle_convention = c0.docstyle_convention ∧
      c'.default_flags = c0.default_flags ∧
      c'.coverage = c0.coverage ∧ c'.badge = c0.badge := by
  intro c' h'
  unfold ApplicationState.update_config ApplicationState.get_config at h'
  rw [hc] at h'
  have h'' : c0.update (convert_config { directory := some (some x) }) = c' := by
    exact Except.ok.inj h'
  rw [← h'']
  exact ⟨rfl, rfl, rfl, rfl, rfl, rfl, rfl, rfl, rfl, rfl⟩

/-- Witness for C8 on a loaded Config with a non-default field
(`json_indent = 2`) and override `directory = "src"`. -/
theorem update_config_directory_frame_witness :
    (({ config := some { json_indent := 2 } } : ApplicationState).config =
      some ({ json_indent := 2 } : Config)) ∧
    (({ config := some { json_indent := 2 } } : ApplicationState).update_config
        noDocWorld okPlugins { directory := some (some "src") }).2 =
      .ok ({ directory := "src", json_indent := 2 } : Config) ∧
    (({ directory := "src", json_indent := 2 } : Config).directory = "src" ∧
      ({ directory := "src", json_indent := 2 } : Config).pyproject =
        ({ json_indent := 2 } : Config).pyproject ∧
      ({ directory := "src", json_indent := 2 } : Config).«include» =
        ({ json_indent := 2 } : Config).«include» ∧
      ({ directory := "src", json_indent := 2 } : Config).exclude =
        ({ json_indent := 2 } : Config).exclude ∧
      ({ directory := "src", json_indent := 2 } : Config).stop_after_first_failure =
        ({ json_indent := 2 } : Config).stop_after_first_failure ∧
      ({ directory := "src", json_indent := 2 } : Config).json_indent =
        ({ json_indent := 2 } : Config).json_indent ∧
      ({ directory := "src", json_indent := 2 } : Config).docstyle_convention =
        ({ json_indent := 2 } : Config).docstyle_convention ∧
      ({ directory := "src", json_indent := 2 } : Config).default_flags =
        ({ json_indent := 2 } : Config).default_flags ∧
      ({ directory := "src", json_indent := 2 } : Config).coverage =
        ({ json_indent := 2 } : Config).coverage ∧
      ({ directory := "src", json_indent := 2 } : Config).badge =
        ({ json_indent := 2 } : Config).badge) :=
  ⟨rfl, rfl,
   update_config_directory_frame { config := some { json_indent := 2 } }
     noDocWorld okPlugins "src" { json_indent := 2 } rfl
     { directory := "src", json_indent := 2 } rfl⟩

end Su6
